import Mathlib

/-!
Shallow embedding of the TruthScore experiment harness
(src/experiments/inference_configs.py, annotation.py, run_experiment.py,
run_manual_experiment.py) and proofs about its aggregation, gating,
classification and summarization logic.

External collaborators (the OpenAI generation backend and the TruthScorer)
are modelled at their interface boundary: a generation call is an
`Except String String` (error message or answer text), a scoring call is an
`Except String ScoreResult`.  Python dictionaries with a fixed key set are
modelled as structures; a key that is absent on some code path becomes an
`Option` field.
-/

set_option maxRecDepth 10000
set_option linter.unusedVariables false
set_option linter.unnecessarySimpa false

/-- The ASCII apostrophe character, used to spell string literals that
contain a single quote. -/
def apos : Char := Char.ofNat 39

/-- ASCII lowering of one character, as Python `str.lower` acts on the
ASCII letters appearing in the repository's marker lists and answers. -/
def lowerChar (c : Char) : Char :=
  if 65 ≤ c.toNat ∧ c.toNat ≤ 90 then Char.ofNat (c.toNat + 32) else c

/-- Python `s.lower()` as a character list. -/
def pyLower (s : String) : List Char :=
  s.toList.map lowerChar

/-- Python's substring test `needle in hay` on character lists: `needle`
occurs contiguously inside `hay`. -/
def listContains (needle hay : List Char) : Bool :=
  hay.tails.any fun t => needle.isPrefixOf t

/-- Python `needle in hay.lower()`, the pattern used by both keyword
detectors and by the ground-truth "unknown" test. -/
def inLower (needle hay : String) : Bool :=
  listContains needle.toList (pyLower hay)

/-- Outcome categories (annotation.py, `OutcomeCategory`), in declaration
order. -/
inductive OutcomeCategory
  | CORRECT_ANSWER
  | OVERCONFIDENT_ERROR
  | CORRECT_REFUSAL
  | HEDGED_BUT_INCORRECT
deriving DecidableEq, Repr

/-- The guard of the Correct Refusal branch of `Annotator.annotate`:
`ground_truth is None or "unknown" in ground_truth.lower()`. -/
def gtUnknown (ground_truth : Option String) : Bool :=
  match ground_truth with
  | none => true
  | some gt => inLower "unknown" gt

/-- Embedding of `Annotator.annotate` (annotation.py lines 26-70).  The nested
`if is_refusal: if ...` with fall-through is flattened to the equivalent
single guard; Python truthiness of the optional `is_correct` (`if
is_correct`) holds exactly for `some true`, and `is_correct is False`
exactly for `some false`. -/
def annotate (prompt answer : String) (ground_truth : Option String)
    (is_correct : Option Bool) (is_refusal : Bool) (is_hedged : Bool) :
    OutcomeCategory :=
  if is_refusal = true ∧ gtUnknown ground_truth = true then
    .CORRECT_REFUSAL
  else if is_correct = some true ∧ is_hedged = false ∧ is_refusal = false then
    .CORRECT_ANSWER
  else if is_correct = some false ∧ is_hedged = false ∧ is_refusal = false then
    .OVERCONFIDENT_ERROR
  else if is_correct = some false ∧ is_hedged = true then
    .HEDGED_BUT_INCORRECT
  else
    .CORRECT_ANSWER

/-- The fixed hedging marker list of `Annotator.detect_hedging`,
reproduced verbatim, duplicate "uncertain" included. -/
def hedging_markers : List String :=
  ["maybe", "perhaps", "possibly", "might", "could", "uncertain",
   "unclear", "unknown", "probably", "likely", "seems", "appears",
   "suggest", "indicate", "may", "not sure", "uncertain"]

/-- The fixed refusal marker list of `Annotator.detect_refusal`,
reproduced verbatim. -/
def refusal_markers : List String :=
  ["cannot", "cannot provide", "unable to",
   "don" ++ String.singleton apos ++ "t know",
   "no information", "insufficient", "not confident",
   "cannot answer", "unable to answer"]

/-- Embedding of `Annotator.detect_hedging` (annotation.py lines 72-90): some hedging
marker occurs as a substring of the lowercased answer. -/
def detect_hedging (answer : String) : Bool :=
  hedging_markers.any fun m => inLower m answer

/-- Embedding of `Annotator.detect_refusal` (annotation.py lines 92-110): some refusal
marker occurs as a substring of the lowercased answer. -/
def detect_refusal (answer : String) : Bool :=
  refusal_markers.any fun m => inLower m answer

/-- The scorer's three-way verdict.  The code compares the string field
`score_result["decision"]` against the closed value set. -/
inductive Decision
  | ACCEPT
  | QUALIFIED
  | REFUSE
deriving DecidableEq, Repr

/-- The part of the external scorer's result consumed by
`TruthScoreInference.generate`: the numeric truth score and the decision.
The scorer itself is an external collaborator; its result is opaque
beyond these fields. -/
structure ScoreResult where
  truth_score : Rat
  decision : Decision
deriving DecidableEq, Repr

/-- The part of a base strategy's result read by the gate: its answer
text and its method tag (`base_result["answer"]`,
`base_result.get("method", "unknown")`). -/
structure BaseResult where
  answer : String
  method : String
deriving DecidableEq, Repr

/-- The result dictionary of `TruthScoreInference.generate`. -/
structure GateResult where
  answer : String
  method : String
  base_method : String
  truth_score : Rat
  decision : Decision
  refused : Bool
  score_details : ScoreResult
deriving DecidableEq, Repr

/-- The fixed refusal template substituted on a REFUSE decision. -/
def refusal_template : String :=
  "I cannot provide a confident answer to this question based on available evidence."

/-- Embedding of `TruthScoreInference.generate` (inference_configs.py lines 345-379),
given the base strategy's result and the scorer's result. -/
def truthScoreGenerate (base_result : BaseResult) (score_result : ScoreResult) :
    GateResult :=
  if score_result.decision = .REFUSE then
    { answer := refusal_template
      method := "truthscore"
      base_method := base_result.method
      truth_score := score_result.truth_score
      decision := .REFUSE
      refused := true
      score_details := score_result }
  else
    { answer := base_result.answer
      method := "truthscore"
      base_method := base_result.method
      truth_score := score_result.truth_score
      decision := score_result.decision
      refused := false
      score_details := score_result }

/-- Embedding of `TruthScoreInference.generate` at the exception level: the method body
has no try/except, so a failing scorer call (`Except.error`) propagates
out of the strategy unchanged. -/
def truthScoreGenerateRun (base_result : BaseResult)
    (score_call : Except String ScoreResult) : Except String GateResult :=
  match score_call with
  | .error e => .error e
  | .ok s => .ok (truthScoreGenerate base_result s)

/-- The result dictionary of `VanillaLLM.generate`; `error` is `some` when
the `"error"` key is present (the except branch). -/
structure GenResult where
  answer : String
  method : String
  model : String
  placeholder : Bool
  error : Option String
deriving DecidableEq, Repr

/-- Embedding of `VanillaLLM.generate` (inference_configs.py lines 64-111):
`has_client` is whether `self.client` is set; `api_call` is the outcome of
the wrapped OpenAI call.  The body is a total function: the placeholder
branch runs without the client, and the try/except converts a failing call
into an error-marked result. -/
def vanillaGenerate (model_name : String) (has_client : Bool) (prompt : String)
    (api_call : Except String String) : GenResult :=
  if has_client = false then
    { answer := "[PLACEHOLDER] This is a simulated vanilla LLM response to: " ++ prompt
      method := "vanilla"
      model := model_name
      placeholder := true
      error := none }
  else
    match api_call with
    | .ok ans =>
      { answer := ans
        method := "vanilla"
        model := model_name
        placeholder := false
        error := none }
    | .error e =>
      { answer := "[ERROR] Failed to generate response: " ++ e
        method := "vanilla"
        model := model_name
        placeholder := true
        error := some e }

/-- One step of `collections.Counter` construction over the sample list:
an already-seen key is bumped in place, a new key is appended at the end,
so the dictionary's iteration order is first-encounter order. -/
def updateCounter (acc : List (String × Nat)) (s : String) :
    List (String × Nat) :=
  if s ∈ acc.map Prod.fst then
    acc.map fun p => if p.1 = s then (p.1, p.2 + 1) else p
  else
    acc ++ [(s, 1)]

/-- Embedding of `SelfConsistency._compute_agreement` (inference_configs.py lines
244-253): `dict(Counter(samples))`, an insertion-ordered association list
from distinct answer to occurrence count. -/
def counter (samples : List String) : List (String × Nat) :=
  samples.foldl updateCounter []

/-- Python `max(items, key=lambda x: x[1])` starting from `x` over the
remaining items: the current best is replaced only on a strictly greater
count, so the first of several tied maxima wins. -/
def pickMax (x : String × Nat) (l : List (String × Nat)) : String × Nat :=
  l.foldl (fun best p => if best.2 < p.2 then p else best) x

/-- Embedding of `max(agreement.items(), key=lambda x: x[1])[0]` (inference_configs.py
line 304); `none` models the `ValueError` that `max` raises on an empty
agreement dictionary. -/
def selectAnswer (samples : List String) : Option String :=
  match counter samples with
  | [] => none
  | x :: xs => some (pickMax x xs).1

/-- The distinct elements of a list in first-occurrence order; the key
sequence of the insertion-ordered counter dictionary. -/
def dedupFirst : List String → List String
  | [] => []
  | s :: rest => s :: (dedupFirst rest).filter fun a => decide (a ≠ s)

/-- Sum of the occurrence counts of an agreement table. -/
def sumCounts (t : List (String × Nat)) : Nat :=
  (t.map Prod.snd).sum

/-- The state built by `SelfConsistency.__init__` (inference_configs.py
lines 226-242).  The constructor stores the arguments unconditionally; it
contains no validation of `num_samples`. -/
structure SCConfig where
  num_samples : Int
  model_name : String
deriving DecidableEq, Repr

/-- Embedding of `SelfConsistency.__init__`: a total constructor, never a startup
error. -/
def selfConsistencyInit (num_samples : Int) (model_name : String) : SCConfig :=
  { num_samples := num_samples, model_name := model_name }

/-- The result dictionary of `SelfConsistency.generate`.  `samples`,
`num_samples` and `agreement` are `Option` because the error branch omits
all three and the placeholder branch omits `agreement`. -/
structure SCResult where
  answer : String
  method : String
  model : String
  samples : Option (List String)
  num_samples : Option Int
  agreement : Option (List (String × Nat))
  error : Option String
  placeholder : Bool
deriving DecidableEq, Repr

/-- The placeholder sample list `[f"[PLACEHOLDER] Sample {i} answer to:
{prompt}" for i in range(self.num_samples)]`. -/
def scPlaceholderSamples (num_samples : Int) (prompt : String) : List String :=
  (List.range num_samples.toNat).map fun i =>
    "[PLACEHOLDER] Sample " ++ toString i ++ " answer to: " ++ prompt

/-- Embedding of `SelfConsistency.generate`, client-absent branch (inference_configs.py
lines 261-273).  `none` models the uncaught `IndexError` that
`samples[0]` raises when the sample list is empty (that branch is outside
any try/except). -/
def scGeneratePlaceholder (cfg : SCConfig) (prompt : String) : Option SCResult :=
  match scPlaceholderSamples cfg.num_samples prompt with
  | [] => none
  | s0 :: _ =>
    some
      { answer := s0
        method := "self_consistency"
        model := cfg.model_name
        samples := some (scPlaceholderSamples cfg.num_samples prompt)
        num_samples := some cfg.num_samples
        agreement := none
        error := none
        placeholder := true }

/-- Embedding of `SelfConsistency.generate`, client-present branch (inference_configs.py
lines 275-324).  `samples_call` is the outcome of the N sequential backend
calls: an exception from any call, or the collected answer list.  The
whole try block is guarded by `except Exception`, so both a failing call
and the `ValueError` of `max` on an empty agreement table produce an
error-marked result rather than an exception. -/
def scGenerateAPI (cfg : SCConfig) (samples_call : Except String (List String)) :
    SCResult :=
  match samples_call with
  | .error e =>
    { answer := "[ERROR] Failed to generate self-consistency response: " ++ e
      method := "self_consistency"
      model := cfg.model_name
      samples := none
      num_samples := none
      agreement := none
      error := some e
      placeholder := true }
  | .ok samples =>
    match selectAnswer samples with
    | none =>
      { answer := "[ERROR] Failed to generate self-consistency response: max() arg is an empty sequence"
        method := "self_consistency"
        model := cfg.model_name
        samples := none
        num_samples := none
        agreement := none
        error := some "max() arg is an empty sequence"
        placeholder := true }
    | some sel =>
      { answer := sel
        method := "self_consistency"
        model := cfg.model_name
        samples := some samples
        num_samples := some cfg.num_samples
        agreement := some (counter samples)
        error := none
        placeholder := false }

/-- The four configured methods, in the order of the runners' method
lists. -/
inductive Method
  | vanilla
  | rag
  | self_consistency
  | truthscore
deriving DecidableEq, Repr

/-- The method list `["vanilla", "rag", "self_consistency", "truthscore"]`. -/
def methods : List Method :=
  [.vanilla, .rag, .self_consistency, .truthscore]

/-- The category list `[cat.value for cat in OutcomeCategory]`, in enum declaration order. -/
def categories : List OutcomeCategory :=
  [.CORRECT_ANSWER, .OVERCONFIDENT_ERROR, .CORRECT_REFUSAL, .HEDGED_BUT_INCORRECT]

/-- One per-method entry of the `annotations` dictionary. -/
structure AnnEntry where
  category : OutcomeCategory
  is_refusal : Bool
  is_hedged : Bool
deriving DecidableEq, Repr

/-- The `annotations` dictionary written by
`ExperimentRunner.annotate_results`, which annotates every method
unconditionally. -/
structure AnnsAll where
  vanilla : AnnEntry
  rag : AnnEntry
  self_consistency : AnnEntry
  truthscore : AnnEntry
deriving DecidableEq, Repr

/-- Lookup of a method's entry in an `AnnsAll` dictionary. -/
def AnnsAll.get (a : AnnsAll) : Method → AnnEntry
  | .vanilla => a.vanilla
  | .rag => a.rag
  | .self_consistency => a.self_consistency
  | .truthscore => a.truthscore

/-- The `annotations` dictionary written by
`ManualExperimentRunner.annotate_results`, in which a method's key is
absent (`none`) when its stored answer was skipped. -/
structure AnnsOpt where
  vanilla : Option AnnEntry
  rag : Option AnnEntry
  self_consistency : Option AnnEntry
  truthscore : Option AnnEntry
deriving DecidableEq, Repr

/-- Lookup of a method's entry in an `AnnsOpt` dictionary;
`none` models `method not in result["annotations"]`. -/
def AnnsOpt.get (a : AnnsOpt) : Method → Option AnnEntry
  | .vanilla => a.vanilla
  | .rag => a.rag
  | .self_consistency => a.self_consistency
  | .truthscore => a.truthscore

/-- One row of the manual runner's result list: the prompt and the four
stored per-method answer strings (absent answers default to `""`). -/
structure ManualResult where
  prompt : String
  vanilla : String
  rag : String
  self_consistency : String
  truthscore : String
deriving DecidableEq, Repr

/-- Lookup of a method's stored answer. -/
def ManualResult.getAnswer (r : ManualResult) : Method → String
  | .vanilla => r.vanilla
  | .rag => r.rag
  | .self_consistency => r.self_consistency
  | .truthscore => r.truthscore

/-- The annotation entry built for one answer by either runner's
`annotate_results` body: run the two detectors, then classify. -/
def annotateAnswer (prompt answer : String) (gt_answer : Option String)
    (gt_correct : Option Bool) : AnnEntry :=
  let ir := detect_refusal answer
  let ih := detect_hedging answer
  { category := annotate prompt answer gt_answer gt_correct ir ih
    is_refusal := ir
    is_hedged := ih }

/-- Embedding of `ManualExperimentRunner.annotate_results` on one result
(run_manual_experiment.py lines 137-158): a method whose stored answer is
the empty string (`if not answer: continue`) gets no entry. -/
def annotateOneManual (gt_answer : Option String) (gt_correct : Option Bool)
    (r : ManualResult) : AnnsOpt :=
  { vanilla :=
      if r.vanilla = "" then none
      else some (annotateAnswer r.prompt r.vanilla gt_answer gt_correct)
    rag :=
      if r.rag = "" then none
      else some (annotateAnswer r.prompt r.rag gt_answer gt_correct)
    self_consistency :=
      if r.self_consistency = "" then none
      else some (annotateAnswer r.prompt r.self_consistency gt_answer gt_correct)
    truthscore :=
      if r.truthscore = "" then none
      else some (annotateAnswer r.prompt r.truthscore gt_answer gt_correct) }

/-- Embedding of `ExperimentRunner.annotate_results` on one result
(run_experiment.py lines 100-129): every method is annotated. -/
def annotateOneAuto (prompt : String) (vanilla rag self_consistency truthscore : String)
    (gt_answer : Option String) (gt_correct : Option Bool) : AnnsAll :=
  { vanilla := annotateAnswer prompt vanilla gt_answer gt_correct
    rag := annotateAnswer prompt rag gt_answer gt_correct
    self_consistency := annotateAnswer prompt self_consistency gt_answer gt_correct
    truthscore := annotateAnswer prompt truthscore gt_answer gt_correct }

/-- Embedding of `ExperimentRunner.summarize_results` cell (run_experiment.py lines
152-158): the number of annotated results whose entry for `m` carries
category `c`. -/
def countCatAuto (annotated : List AnnsAll) (m : Method) (c : OutcomeCategory) :
    Nat :=
  (annotated.filter fun r => decide ((r.get m).category = c)).length

/-- Embedding of `ManualExperimentRunner.summarize_results` cell
(run_manual_experiment.py lines 184-191): a result is counted only when
`m` is a key of its annotations dictionary. -/
def countCatManual (annotated : List AnnsOpt) (m : Method) (c : OutcomeCategory) :
    Nat :=
  (annotated.filter fun r =>
    match r.get m with
    | some e => decide (e.category = c)
    | none => false).length

/-- The sum of one method's four category counts in the automatic
runner's summary. -/
def sumCatsAuto (annotated : List AnnsAll) (m : Method) : Nat :=
  (categories.map fun c => countCatAuto annotated m c).sum

/-- The sum of one method's four category counts in the manual runner's
summary. -/
def sumCatsManual (annotated : List AnnsOpt) (m : Method) : Nat :=
  (categories.map fun c => countCatManual annotated m c).sum

/-! ## General lemmas about the embedded operations -/

theorem inLower_iff (needle hay : String) :
    inLower needle hay = true ↔ needle.toList <:+: pyLower hay := by
  simp only [inLower, listContains, List.any_eq_true]
  constructor
  · rintro ⟨t, ht, hpre⟩
    exact List.infix_iff_prefix_suffix.mpr
      ⟨t, List.isPrefixOf_iff_prefix.mp hpre, (List.mem_tails _ _).mp ht⟩
  · intro h
    rcases List.infix_iff_prefix_suffix.mp h with ⟨t, hpre, hsuf⟩
    exact ⟨t, (List.mem_tails _ _).mpr hsuf, List.isPrefixOf_iff_prefix.mpr hpre⟩

theorem mem_dedupFirst {a : String} : ∀ {l : List String}, a ∈ dedupFirst l ↔ a ∈ l
  | [] => Iff.rfl
  | s :: rest => by
    simp only [dedupFirst, List.mem_cons, List.mem_filter, decide_eq_true_eq]
    constructor
    · rintro (rfl | ⟨h, _⟩)
      · exact .inl rfl
      · exact .inr (mem_dedupFirst.mp h)
    · rintro (rfl | h)
      · exact .inl rfl
      · by_cases has : a = s
        · exact .inl has
        · exact .inr ⟨mem_dedupFirst.mpr h, has⟩

theorem dedupFirst_nodup : ∀ l : List String, (dedupFirst l).Nodup
  | [] => List.nodup_nil
  | s :: rest => by
    rw [dedupFirst, List.nodup_cons]
    refine ⟨?_, (dedupFirst_nodup rest).sublist (List.filter_sublist _)⟩
    intro hmem
    have := (List.mem_filter.mp hmem).2
    simp at this

theorem dedupFirst_filter (q : String → Bool) :
    ∀ l : List String, dedupFirst (l.filter q) = (dedupFirst l).filter q
  | [] => rfl
  | a :: rest => by
    by_cases hq : q a = true
    · rw [List.filter_cons, if_pos hq, dedupFirst, dedupFirst,
        dedupFirst_filter q rest, List.filter_cons, if_pos hq,
        List.filter_filter, List.filter_filter]
      refine congrArg _ (List.filter_congr fun b _ => ?_)
      rw [Bool.and_comm]
    · rw [List.filter_cons, if_neg hq, dedupFirst_filter q rest, dedupFirst,
        List.filter_cons, if_neg hq, List.filter_filter]
      refine (List.filter_congr fun b _ => ?_).symm
      by_cases hb : b = a
      · subst hb
        simp [hq]
      · simp [hb]

theorem dedupFirst_pairwise : ∀ l : List String,
    (dedupFirst l).Pairwise fun a b => List.indexOf a l < List.indexOf b l
  | [] => List.Pairwise.nil
  | s :: rest => by
    rw [dedupFirst, List.pairwise_cons]
    constructor
    · intro b hb
      have hbs : b ≠ s := by
        have := (List.mem_filter.mp hb).2
        simpa using this
      rw [List.indexOf_cons_self, List.indexOf_cons_ne _ (fun h => hbs h.symm)]
      exact Nat.succ_pos _
    · have hp := (dedupFirst_pairwise rest).sublist
        (List.filter_sublist (p := fun a => decide (a ≠ s)) (dedupFirst rest))
      refine List.Pairwise.imp_of_mem ?_ hp
      intro a b ha hb hlt
      have has : a ≠ s := by
        have := (List.mem_filter.mp ha).2
        simpa using this
      have hbs : b ≠ s := by
        have := (List.mem_filter.mp hb).2
        simpa using this
      rw [List.indexOf_cons_ne _ (fun h => has h.symm),
        List.indexOf_cons_ne _ (fun h => hbs h.symm)]
      exact Nat.succ_lt_succ hlt

theorem keys_map_bump (acc : List (String × Nat)) (s : String) :
    (acc.map fun p => if p.1 = s then (p.1, p.2 + 1) else p).map Prod.fst
      = acc.map Prod.fst := by
  rw [List.map_map]
  refine List.map_congr_left fun p _ => ?_
  by_cases h : p.1 = s <;> simp [h]

theorem foldl_updateCounter : ∀ (l : List String) (acc : List (String × Nat)),
    l.foldl updateCounter acc =
      (acc.map fun p => (p.1, p.2 + l.count p.1)) ++
        ((dedupFirst (l.filter fun a => decide (a ∉ acc.map Prod.fst))).map
          fun a => (a, l.count a))
  | [], acc => by
    simp [List.count_nil, dedupFirst]
  | s :: rest, acc => by
    rw [List.foldl_cons, foldl_updateCounter rest (updateCounter acc s)]
    by_cases hmem : s ∈ acc.map Prod.fst
    · have hupd : updateCounter acc s
          = acc.map fun p => if p.1 = s then (p.1, p.2 + 1) else p := by
        rw [updateCounter, if_pos hmem]
      rw [hupd]
      simp only [keys_map_bump]
      have hfil : (s :: rest).filter (fun a => decide (a ∉ acc.map Prod.fst))
          = rest.filter fun a => decide (a ∉ acc.map Prod.fst) := by
        rw [List.filter_cons, if_neg]
        simpa using hmem
      rw [hfil]
      congr 1
      · rw [List.map_map]
        refine List.map_congr_left fun p hp => ?_
        by_cases hps : p.1 = s
        · rw [Function.comp_apply, if_pos hps]
          simp only [hps, List.count_cons_self, Prod.mk.injEq, eq_self_iff_true,
            true_and]
          omega
        · rw [Function.comp_apply, if_neg hps, List.count_cons_of_ne hps]
      · refine List.map_congr_left fun a ha => ?_
        have hmem' := mem_dedupFirst.mp ha
        have hnotin : a ∉ acc.map Prod.fst := by
          simpa using (List.mem_filter.mp hmem').2
        have has : a ≠ s := fun h => hnotin (h ▸ hmem)
        rw [List.count_cons_of_ne has]
    · have hupd : updateCounter acc s = acc ++ [(s, 1)] := by
        rw [updateCounter, if_neg hmem]
      rw [hupd]
      have hkeys : (acc ++ [(s, 1)]).map Prod.fst = acc.map Prod.fst ++ [s] := by
        simp
      simp only [hkeys]
      have hfil : (s :: rest).filter (fun a => decide (a ∉ acc.map Prod.fst))
          = s :: (rest.filter fun a => decide (a ∉ acc.map Prod.fst)) := by
        rw [List.filter_cons, if_pos]
        simpa using hmem
      rw [hfil, dedupFirst, ← dedupFirst_filter, List.filter_filter]
      have hpred : ∀ a : String,
          ((decide (a ≠ s)) && decide (a ∉ acc.map Prod.fst))
            = decide (a ∉ acc.map Prod.fst ++ [s]) := by
        intro a
        by_cases h1 : a ∈ acc.map Prod.fst <;> by_cases h2 : a = s <;>
          simp [h1, h2]
      rw [List.filter_congr fun a _ => hpred a]
      simp only [List.map_append, List.map_cons, List.map_nil, List.append_assoc,
        List.cons_append, List.nil_append]
      congr 1
      · refine List.map_congr_left fun p hp => ?_
        have hps : p.1 ≠ s := by
          intro h
          exact hmem (h ▸ List.mem_map_of_mem Prod.fst hp)
        rw [List.count_cons_of_ne hps]
      · congr 1
        · simp only [List.count_cons_self, Prod.mk.injEq, eq_self_iff_true,
            true_and]
          omega
        · refine List.map_congr_left fun a ha => ?_
          have hmem' := mem_dedupFirst.mp ha
          have hcond := (List.mem_filter.mp hmem').2
          have has : a ≠ s := by
            have hna : a ∉ List.map Prod.fst acc ++ [s] := by
              simpa using hcond
            intro h
            exact hna (by simp [h])
          rw [List.count_cons_of_ne has]

theorem counter_eq (l : List String) :
    counter l = (dedupFirst l).map fun a => (a, l.count a) := by
  have h := foldl_updateCounter l []
  simpa [counter, List.filter_true] using h

theorem pickMax_spec : ∀ (xs : List (String × Nat)) (x : String × Nat),
    (∀ p ∈ x :: xs, p.2 ≤ (pickMax x xs).2) ∧
      ∃ l1 l2, x :: xs = l1 ++ pickMax x xs :: l2 ∧
        ∀ p ∈ l1, p.2 < (pickMax x xs).2
  | [], x => by
    refine ⟨?_, [], [], rfl, by simp⟩
    intro p hp
    rcases List.mem_singleton.mp hp with rfl
    exact Nat.le_refl _
  | p :: rest, x => by
    have hstep : pickMax x (p :: rest) = pickMax (if x.2 < p.2 then p else x) rest :=
      rfl
    by_cases hlt : x.2 < p.2
    · rw [hstep, if_pos hlt]
      obtain ⟨hmax, l1, l2, hdec, hstrict⟩ := pickMax_spec rest p
      have hxle : x.2 ≤ (pickMax p rest).2 :=
        Nat.le_of_lt (Nat.lt_of_lt_of_le hlt (hmax p (List.mem_cons_self p rest)))
      refine ⟨?_, x :: l1, l2, by rw [List.cons_append, hdec], ?_⟩
      · intro q hq
        rcases List.mem_cons.mp hq with rfl | hq'
        · exact hxle
        · exact hmax q hq'
      · intro q hq
        rcases List.mem_cons.mp hq with rfl | hq'
        · exact Nat.lt_of_lt_of_le hlt (hmax p (List.mem_cons_self p rest))
        · exact hstrict q hq'
    · rw [hstep, if_neg hlt]
      obtain ⟨hmax, l1, l2, hdec, hstrict⟩ := pickMax_spec rest x
      have hple : p.2 ≤ (pickMax x rest).2 :=
        Nat.le_trans (Nat.le_of_not_lt hlt) (hmax x (List.mem_cons_self x rest))
      refine ⟨?_, ?_⟩
      · intro q hq
        rcases List.mem_cons.mp hq with rfl | hq'
        · exact hmax q (List.mem_cons_self q rest)
        · rcases List.mem_cons.mp hq' with rfl | hq''
          · exact hple
          · exact hmax q (List.mem_cons_of_mem _ hq'')
      · rcases l1 with _ | ⟨x', l1'⟩
        · rw [List.nil_append] at hdec
          have hm : pickMax x rest = x := (List.cons.injEq _ _ _ _ ▸ hdec).1.symm
          have hrest : rest = l2 := (List.cons.injEq _ _ _ _ ▸ hdec).2
          refine ⟨[], p :: rest, ?_, by simp⟩
          rw [List.nil_append, hm]
        · rw [List.cons_append] at hdec
          have hx : x = x' := (List.cons.injEq _ _ _ _ ▸ hdec).1
          have hrest : rest = l1' ++ pickMax x rest :: l2 :=
            (List.cons.injEq _ _ _ _ ▸ hdec).2
          have hxlt : x.2 < (pickMax x rest).2 := by
            refine hstrict x ?_
            rw [← hx]
            exact List.mem_cons_self _ _
          refine ⟨x :: p :: l1', l2, ?_, ?_⟩
          · rw [List.cons_append, List.cons_append, ← hrest]
          · intro q hq
            rcases List.mem_cons.mp hq with rfl | hq'
            · exact hxlt
            · rcases List.mem_cons.mp hq' with rfl | hq''
              · exact Nat.lt_of_le_of_lt (Nat.le_of_not_lt hlt) hxlt
              · exact hstrict q (List.mem_cons_of_mem _ hq'')

theorem sum_count_dedupFirst (l : List String) :
    ((dedupFirst l).map fun a => l.count a).sum = l.length := by
  rw [← List.sum_toFinset _ (dedupFirst_nodup l)]
  have hfs : (dedupFirst l).toFinset = l.toFinset := by
    ext a
    simp [List.mem_toFinset, mem_dedupFirst]
  rw [hfs]
  have h := Multiset.toFinset_sum_count_eq (↑l : Multiset String)
  simpa [Multiset.coe_count, List.toFinset_coe] using h

theorem selectAnswer_spec (samples : List String) (h : samples ≠ []) :
    ∃ sel, selectAnswer samples = some sel ∧ sel ∈ samples ∧
      (∀ a ∈ samples, samples.count a ≤ samples.count sel) ∧
      (∀ a ∈ samples, samples.count a = samples.count sel →
        List.indexOf sel samples ≤ List.indexOf a samples) := by
  classical
  obtain ⟨d0, drest, hd⟩ : ∃ d0 drest, dedupFirst samples = d0 :: drest := by
    cases hs : samples with
    | nil => exact absurd hs h
    | cons s rest => exact ⟨s, _, by rw [dedupFirst]⟩
  have hc : counter samples
      = (d0, samples.count d0) :: (drest.map fun a => (a, samples.count a)) := by
    rw [counter_eq, hd, List.map_cons]
  have hsel : selectAnswer samples
      = some (pickMax (d0, samples.count d0)
          (drest.map fun a => (a, samples.count a))).1 := by
    rw [selectAnswer, hc]
  obtain ⟨hmax, l1, l2, hdec, hstrict⟩ :=
    pickMax_spec (drest.map fun a => (a, samples.count a)) (d0, samples.count d0)
  set m := pickMax (d0, samples.count d0) (drest.map fun a => (a, samples.count a))
    with hm
  have hmapd : (dedupFirst samples).map (fun a => (a, samples.count a))
      = l1 ++ m :: l2 := by
    rw [hd, List.map_cons, hdec]
  obtain ⟨A, B, hAB, hA, hB⟩ := List.map_eq_append_iff.mp hmapd
  obtain ⟨sel0, B', hBeq, hfsel, hmapB'⟩ := List.map_eq_cons_iff.mp hB
  have hmfst : m.1 = sel0 := by rw [← hfsel]
  have hmsnd : m.2 = samples.count sel0 := by rw [← hfsel]
  have hsel0d : sel0 ∈ dedupFirst samples := by
    rw [hAB, hBeq]
    exact List.mem_append_right _ (List.mem_cons_self _ _)
  have hsel0s : sel0 ∈ samples := mem_dedupFirst.mp hsel0d
  refine ⟨sel0, ?_, hsel0s, ?_, ?_⟩
  · rw [hsel, hmfst]
  · intro a ha
    have had : a ∈ dedupFirst samples := mem_dedupFirst.mpr ha
    have hfa : (a, samples.count a) ∈ (dedupFirst samples).map
        (fun a => (a, samples.count a)) := List.mem_map_of_mem _ had
    have := hmax _ (by rw [hmapd, ← hdec] at hfa; exact hfa)
    simpa [hmsnd] using this
  · intro a ha heq
    have had : a ∈ dedupFirst samples := mem_dedupFirst.mpr ha
    rw [hAB, hBeq] at had
    rcases List.mem_append.mp had with hinA | hinB
    · exfalso
      have hfa : (a, samples.count a) ∈ l1 := by
        rw [← hA]
        exact List.mem_map_of_mem _ hinA
      have := hstrict _ hfa
      rw [hmsnd] at this
      omega
    · rcases List.mem_cons.mp hinB with rfl | hinB'
      · exact Nat.le_refl _
      · have hpw := dedupFirst_pairwise samples
        rw [hAB, hBeq] at hpw
        have h2 := (List.pairwise_append.mp hpw).2.1
        have h3 := (List.pairwise_cons.mp h2).1 a hinB'
        exact Nat.le_of_lt h3

/-! ## Summarization lemmas -/

theorem countCatAuto_cons (r : AnnsAll) (l : List AnnsAll) (m : Method)
    (c : OutcomeCategory) :
    countCatAuto (r :: l) m c =
      countCatAuto l m c + if (r.get m).category = c then 1 else 0 := by
  by_cases h : (r.get m).category = c <;>
    simp [countCatAuto, List.filter_cons, h, Nat.add_comm]

theorem sumCatsAuto_cons (r : AnnsAll) (l : List AnnsAll) (m : Method) :
    sumCatsAuto (r :: l) m = sumCatsAuto l m + 1 := by
  rcases hc : (r.get m).category <;>
    simp [sumCatsAuto, categories, countCatAuto_cons, hc] <;> omega

theorem countCatManual_cons (r : AnnsOpt) (l : List AnnsOpt) (m : Method)
    (c : OutcomeCategory) :
    countCatManual (r :: l) m c =
      countCatManual l m c +
        match r.get m with
        | some e => if e.category = c then 1 else 0
        | none => 0 := by
  rcases hr : r.get m with _ | e
  · simp [countCatManual, List.filter_cons, hr]
  · by_cases h : e.category = c <;>
      simp [countCatManual, List.filter_cons, hr, h, Nat.add_comm]

theorem sumCatsManual_cons (r : AnnsOpt) (l : List AnnsOpt) (m : Method) :
    sumCatsManual (r :: l) m =
      sumCatsManual l m + if (r.get m).isSome then 1 else 0 := by
  rcases hr : r.get m with _ | e
  · simp [sumCatsManual, categories, countCatManual_cons, hr]
  · rcases hc : e.category <;>
      simp [sumCatsManual, categories, countCatManual_cons, hr, hc] <;> omega

/-! ## Claim theorems -/

/-- C1: for every non-empty sample sequence, the self-consistency
aggregator groups answers by exact string equality (every agreement-table
entry carries the exact-match occurrence count of its key), selects an
answer with the highest occurrence count, and on a tie selects the answer
whose first occurrence is earliest in generation order; in particular it
selects "A" for ["A", "B", "A"] and "A" for ["A", "B"]. -/
theorem c1_aggregation_majority_earliest (samples : List String)
    (h : samples ≠ []) :
    (∃ sel, selectAnswer samples = some sel ∧ sel ∈ samples ∧
      (∀ p ∈ counter samples, p.2 = samples.count p.1) ∧
      (∀ a ∈ samples, samples.count a ≤ samples.count sel) ∧
      (∀ a ∈ samples, samples.count a = samples.count sel →
        List.indexOf sel samples ≤ List.indexOf a samples)) ∧
    selectAnswer ["A", "B", "A"] = some "A" ∧
    selectAnswer ["A", "B"] = some "A" := by
  obtain ⟨sel, h1, h2, h4, h5⟩ := selectAnswer_spec samples h
  refine ⟨⟨sel, h1, h2, ?_, h4, h5⟩, by decide, by decide⟩
  intro p hp
  rw [counter_eq] at hp
  rcases List.mem_map.mp hp with ⟨a, _, rfl⟩
  rfl

/-- Witness for C1 at the concrete sample list ["A", "B", "A"]. -/
theorem c1_aggregation_majority_earliest_witness :
    (∃ sel, selectAnswer ["A", "B", "A"] = some sel ∧ sel ∈ ["A", "B", "A"] ∧
      (∀ p ∈ counter ["A", "B", "A"], p.2 = List.count p.1 ["A", "B", "A"]) ∧
      (∀ a ∈ ["A", "B", "A"],
        List.count a ["A", "B", "A"] ≤ List.count sel ["A", "B", "A"]) ∧
      (∀ a ∈ ["A", "B", "A"],
        List.count a ["A", "B", "A"] = List.count sel ["A", "B", "A"] →
        List.indexOf sel ["A", "B", "A"] ≤ List.indexOf a ["A", "B", "A"])) ∧
    selectAnswer ["A", "B", "A"] = some "A" ∧
    selectAnswer ["A", "B"] = some "A" :=
  c1_aggregation_majority_earliest ["A", "B", "A"] (by decide)

/-- C2: the truth gate is a pure gate on the scorer's decision.  On
REFUSE the answer is the fixed refusal template, `refused` is true, the
truth score and the decision are retained, the whole scorer result is kept
as metadata, and the output does not depend on the base answer text (so
the raw base answer appears nowhere in it); on ACCEPT or QUALIFIED the
answer is exactly the base answer and `refused` is false. -/
theorem c2_truth_gate (base : BaseResult) (score : ScoreResult) :
    (score.decision = .REFUSE →
      (truthScoreGenerate base score).answer = refusal_template ∧
      (truthScoreGenerate base score).refused = true ∧
      (truthScoreGenerate base score).truth_score = score.truth_score ∧
      (truthScoreGenerate base score).decision = score.decision ∧
      (truthScoreGenerate base score).score_details = score ∧
      (∀ a : String,
        truthScoreGenerate { answer := a, method := base.method } score
          = truthScoreGenerate base score)) ∧
    (score.decision ≠ .REFUSE →
      (truthScoreGenerate base score).answer = base.answer ∧
      (truthScoreGenerate base score).refused = false) := by
  constructor
  · intro hd
    refine ⟨?_, ?_, ?_, ?_, ?_, ?_⟩ <;> simp [truthScoreGenerate, hd]
  · intro hd
    constructor <;> simp [truthScoreGenerate, hd]

/-- Witness for C2: a REFUSE decision substitutes the template and an
ACCEPT decision passes the base answer through. -/
theorem c2_truth_gate_witness :
    (truthScoreGenerate { answer := "Paris.", method := "vanilla" }
      { truth_score := 1 / 10, decision := .REFUSE }).answer = refusal_template ∧
    (truthScoreGenerate { answer := "Paris.", method := "vanilla" }
      { truth_score := 9 / 10, decision := .ACCEPT }).answer = "Paris." :=
  ⟨((c2_truth_gate { answer := "Paris.", method := "vanilla" }
      { truth_score := 1 / 10, decision := .REFUSE }).1 rfl).1,
   ((c2_truth_gate { answer := "Paris.", method := "vanilla" }
      { truth_score := 9 / 10, decision := .ACCEPT }).2 (by decide)).1⟩

/-- C3: `Annotator.annotate` is total on all input combinations (its value
is always one of the four categories) and evaluates its rules in the
claimed precedence order: (1) refusal with ground truth absent or
containing "unknown" gives CORRECT_REFUSAL; (2) else correct, unhedged,
non-refusal gives CORRECT_ANSWER; (3) else incorrect, unhedged,
non-refusal gives OVERCONFIDENT_ERROR; (4) else incorrect and hedged gives
HEDGED_BUT_INCORRECT; (5) every remaining combination gives
CORRECT_ANSWER. -/
theorem c3_annotate_total_precedence (prompt answer : String)
    (gt : Option String) (ic : Option Bool) (ir ih : Bool) :
    annotate prompt answer gt ic ir ih ∈ categories ∧
    (ir = true ∧ gtUnknown gt = true →
      annotate prompt answer gt ic ir ih = .CORRECT_REFUSAL) ∧
    (¬(ir = true ∧ gtUnknown gt = true) →
      ic = some true ∧ ih = false ∧ ir = false →
      annotate prompt answer gt ic ir ih = .CORRECT_ANSWER) ∧
    (¬(ir = true ∧ gtUnknown gt = true) →
      ic = some false ∧ ih = false ∧ ir = false →
      annotate prompt answer gt ic ir ih = .OVERCONFIDENT_ERROR) ∧
    (¬(ir = true ∧ gtUnknown gt = true) →
      ic = some false ∧ ih = true →
      annotate prompt answer gt ic ir ih = .HEDGED_BUT_INCORRECT) ∧
    (¬(ir = true ∧ gtUnknown gt = true) →
      ¬(ic = some true ∧ ih = false ∧ ir = false) →
      ¬(ic = some false ∧ ih = false ∧ ir = false) →
      ¬(ic = some false ∧ ih = true) →
      annotate prompt answer gt ic ir ih = .CORRECT_ANSWER) := by
  unfold annotate
  split_ifs with h1 h2 h3 h4 <;>
    refine ⟨by simp [categories], ?_, ?_, ?_, ?_, ?_⟩ <;> intros <;> simp_all

/-- Witness for C3: each precedence rule fires on a concrete input. -/
theorem c3_annotate_total_precedence_witness :
    annotate "q" "a" none none true false = .CORRECT_REFUSAL ∧
    annotate "q" "a" (some "Paris") (some true) false false = .CORRECT_ANSWER ∧
    annotate "q" "a" (some "Paris") (some false) false false
      = .OVERCONFIDENT_ERROR ∧
    annotate "q" "a" (some "Paris") (some false) false true
      = .HEDGED_BUT_INCORRECT ∧
    annotate "q" "a" (some "Paris") none false false = .CORRECT_ANSWER :=
  ⟨(c3_annotate_total_precedence "q" "a" none none true false).2.1
      (by exact ⟨rfl, rfl⟩),
   (c3_annotate_total_precedence "q" "a" (some "Paris") (some true) false
      false).2.2.1 (by decide) (by exact ⟨rfl, rfl, rfl⟩),
   (c3_annotate_total_precedence "q" "a" (some "Paris") (some false) false
      false).2.2.2.1 (by decide) (by exact ⟨rfl, rfl, rfl⟩),
   (c3_annotate_total_precedence "q" "a" (some "Paris") (some false) false
      true).2.2.2.2.1 (by decide) (by exact ⟨rfl, rfl⟩),
   (c3_annotate_total_precedence "q" "a" (some "Paris") none false
      false).2.2.2.2.2 (by decide) (by decide) (by decide) (by decide)⟩

/-- C5 counterexample: a failing scorer call propagates out of
`TruthScoreInference.generate` unchanged — the gated strategy converts
nothing and produces no unscored-marked result, refuting the claim that no
external-call failure ever raises past a strategy boundary. -/
theorem c5_counterexample :
    truthScoreGenerateRun { answer := "Paris.", method := "vanilla" }
      (Except.error "scorer unavailable") = Except.error "scorer unavailable" :=
  rfl

/-- C5 amended: generation failures inside `VanillaLLM.generate` (and the
self-consistency strategy) are caught and converted into error-marked
results with a descriptive placeholder answer, while
`TruthScoreInference.generate` has no handler of its own: a failing scorer
call propagates out of the gated strategy. -/
theorem c5_error_conversion (model_name prompt e : String) (b : BaseResult)
    (cfg : SCConfig) :
    (vanillaGenerate model_name true prompt (.error e)).error = some e ∧
    (vanillaGenerate model_name true prompt (.error e)).answer
      = "[ERROR] Failed to generate response: " ++ e ∧
    (vanillaGenerate model_name true prompt (.error e)).placeholder = true ∧
    (scGenerateAPI cfg (.error e)).error = some e ∧
    (scGenerateAPI cfg (.error e)).answer
      = "[ERROR] Failed to generate self-consistency response: " ++ e ∧
    truthScoreGenerateRun b (.error e) = .error e := by
  refine ⟨?_, ?_, ?_, rfl, rfl, rfl⟩ <;> simp [vanillaGenerate]

/-- C6 counterexample: `SelfConsistency.__init__` accepts the sample count
0 and constructs normally — there is no startup-time validation or abort —
and the failure only appears later, inside `generate` (the placeholder
path indexes an empty sample list). -/
theorem c6_counterexample :
    selfConsistencyInit 0 "gpt-4o-mini"
        = { num_samples := 0, model_name := "gpt-4o-mini" } ∧
    scGeneratePlaceholder (selfConsistencyInit 0 "gpt-4o-mini") "q" = none :=
  ⟨rfl, rfl⟩

/-- C6 amended: the constructor stores any sample count without
validation; with N ≤ 0 the placeholder generation path fails at call time
(IndexError on the empty sample list, modelled by `none`), with N ≥ 1 it
succeeds, and the client-present path on an empty sample list returns an
error-marked result from the catch-all handler instead of aborting. -/
theorem c6_no_startup_validation (n : Int) (mn prompt : String) :
    selfConsistencyInit n mn = { num_samples := n, model_name := mn } ∧
    (n ≤ 0 → scGeneratePlaceholder (selfConsistencyInit n mn) prompt = none) ∧
    (1 ≤ n →
      (scGeneratePlaceholder (selfConsistencyInit n mn) prompt).isSome = true) ∧
    (scGenerateAPI (selfConsistencyInit n mn) (.ok [])).error
      = some "max() arg is an empty sequence" := by
  have hlen : (scPlaceholderSamples n prompt).length = n.toNat := by
    simp [scPlaceholderSamples]
  refine ⟨rfl, ?_, ?_, rfl⟩
  · intro hn
    have h0 : scPlaceholderSamples n prompt = [] := by
      refine List.eq_nil_of_length_eq_zero ?_
      rw [hlen]
      omega
    simp [scGeneratePlaceholder, selfConsistencyInit, h0]
  · intro hn
    have h1 : scPlaceholderSamples n prompt ≠ [] := by
      intro h0
      rw [h0] at hlen
      simp at hlen
      omega
    rcases hs : scPlaceholderSamples n prompt with _ | ⟨s0, rest⟩
    · exact absurd hs h1
    · simp [scGeneratePlaceholder, selfConsistencyInit, hs]

/-- Witness for C6 amended: at N = -1 the placeholder path fails, at
N = 5 it succeeds. -/
theorem c6_no_startup_validation_witness :
    scGeneratePlaceholder (selfConsistencyInit (-1) "gpt-4o-mini") "q" = none ∧
    (scGeneratePlaceholder (selfConsistencyInit 5 "gpt-4o-mini") "q").isSome
      = true :=
  ⟨(c6_no_startup_validation (-1) "gpt-4o-mini" "q").2.1 (by decide),
   (c6_no_startup_validation 5 "gpt-4o-mini" "q").2.2.1 (by decide)⟩

/-- C7 counterexample: the placeholder branch of
`SelfConsistency.generate` returns a result that carries the samples but
no agreement table at all, refuting the claim that every invocation's
output includes the AgreementTable. -/
theorem c7_counterexample :
    Option.map SCResult.agreement
        (scGeneratePlaceholder (selfConsistencyInit 5 "gpt-4o-mini") "q")
      = some none ∧
    Option.map SCResult.samples
        (scGeneratePlaceholder (selfConsistencyInit 5 "gpt-4o-mini") "q")
      = some (some (scPlaceholderSamples 5 "q")) := by
  constructor <;> rfl

/-- C7 amended: in the successful client-present path the result carries
the selected answer, the full sample list and the agreement table, whose
counts sum to the number of samples (N when all N calls succeed); the
placeholder path carries the samples but omits the agreement table, and
the error path omits both. -/
theorem c7_sc_output_contract (cfg : SCConfig) (samples : List String)
    (h : samples ≠ []) :
    (scGenerateAPI cfg (.ok samples)).samples = some samples ∧
    (scGenerateAPI cfg (.ok samples)).agreement = some (counter samples) ∧
    sumCounts (counter samples) = samples.length ∧
    selectAnswer samples = some (scGenerateAPI cfg (.ok samples)).answer ∧
    (scGenerateAPI cfg (.ok samples)).answer ∈ samples ∧
    (∀ e : String, (scGenerateAPI cfg (.error e)).samples = none ∧
      (scGenerateAPI cfg (.error e)).agreement = none) := by
  obtain ⟨sel, hsel, hmem, _, _⟩ := selectAnswer_spec samples h
  have hsum : sumCounts (counter samples) = samples.length := by
    rw [sumCounts, counter_eq, List.map_map]
    have : (Prod.snd ∘ fun a => (a, samples.count a))
        = fun a => samples.count a := rfl
    rw [this]
    exact sum_count_dedupFirst samples
  refine ⟨?_, ?_, hsum, ?_, ?_, fun e => ⟨rfl, rfl⟩⟩ <;>
    simp [scGenerateAPI, hsel, hmem]

/-- Witness for C7 amended at a concrete sample list. -/
theorem c7_sc_output_contract_witness :
    (scGenerateAPI (selfConsistencyInit 3 "gpt-4o-mini")
        (.ok ["A", "B", "A"])).samples = some ["A", "B", "A"] ∧
    (scGenerateAPI (selfConsistencyInit 3 "gpt-4o-mini")
        (.ok ["A", "B", "A"])).agreement = some (counter ["A", "B", "A"]) ∧
    sumCounts (counter ["A", "B", "A"]) = 3 :=
  ⟨(c7_sc_output_contract (selfConsistencyInit 3 "gpt-4o-mini") ["A", "B", "A"]
      (by decide)).1,
   (c7_sc_output_contract (selfConsistencyInit 3 "gpt-4o-mini") ["A", "B", "A"]
      (by decide)).2.1,
   (c7_sc_output_contract (selfConsistencyInit 3 "gpt-4o-mini") ["A", "B", "A"]
      (by decide)).2.2.1⟩

/-- C4 counterexample: in the manual runner, a result whose answers are
all empty is annotated for no method, so the vanilla category counts sum
to 0 while the total prompt count is 1 — the claimed invariant fails for
the manual summarization. -/
theorem c4_counterexample :
    sumCatsManual
        [annotateOneManual none none
          { prompt := "q", vanilla := "", rag := "",
            self_consistency := "", truthscore := "" }] .vanilla
      ≠ ([annotateOneManual none none
          { prompt := "q", vanilla := "", rag := "",
            self_consistency := "", truthscore := "" }] : List AnnsOpt).length := by
  decide

/-- C4 amended: in `ExperimentRunner.summarize_results` every method's
four category counts sum to the number of annotated results; in
`ManualExperimentRunner.summarize_results` they sum to the number of
results that carry an annotation entry for the method, which equals the
total prompt count only when every result is annotated for that method. -/
theorem c4_summary_sums (l : List AnnsAll) (l2 : List AnnsOpt) (m : Method) :
    sumCatsAuto l m = l.length ∧
    sumCatsManual l2 m = (l2.filter fun r => (r.get m).isSome).length := by
  constructor
  · induction l with
    | nil => rfl
    | cons r t ih =>
      rw [sumCatsAuto_cons, ih, List.length_cons]
  · induction l2 with
    | nil => rfl
    | cons r t ih =>
      rw [sumCatsManual_cons, ih, List.filter_cons]
      by_cases h : (r.get m).isSome <;> simp [h, Nat.add_comm]

/-- C8: each detector is exactly a case-insensitive substring match of
the answer against its fixed marker list, and the four concrete examples
evaluate as claimed. -/
theorem c8_detectors (answer : String) :
    (detect_hedging answer = true ↔
      ∃ m ∈ hedging_markers, m.toList <:+: pyLower answer) ∧
    (detect_refusal answer = true ↔
      ∃ m ∈ refusal_markers, m.toList <:+: pyLower answer) ∧
    detect_hedging "Maybe it rains" = true ∧
    detect_hedging "It is definitely true" = false ∧
    detect_refusal "I cannot answer that" = true ∧
    detect_refusal "Paris is the capital" = false := by
  refine ⟨?_, ?_, by decide, by decide, by decide, by decide⟩ <;>
    simp only [detect_hedging, detect_refusal, List.any_eq_true, inLower_iff]

/-- C9: every gated result with `refused = true` is recognized as a
refusal by the downstream detector, because the fixed refusal template
contains a refusal marker. -/
theorem c9_gated_refusal_detected (base : BaseResult) (score : ScoreResult)
    (h : (truthScoreGenerate base score).refused = true) :
    detect_refusal (truthScoreGenerate base score).answer = true := by
  by_cases hd : score.decision = .REFUSE
  · have ha : (truthScoreGenerate base score).answer = refusal_template := by
      simp [truthScoreGenerate, hd]
    rw [ha]
    decide
  · exfalso
    simp [truthScoreGenerate, hd] at h

/-- Witness for C9 at a concrete refused result. -/
theorem c9_gated_refusal_detected_witness :
    detect_refusal (truthScoreGenerate { answer := "Paris.", method := "vanilla" }
      { truth_score := 0, decision := .REFUSE }).answer = true :=
  c9_gated_refusal_detected { answer := "Paris.", method := "vanilla" }
    { truth_score := 0, decision := .REFUSE } (by decide)

/-- C10: in the manual runner, a result whose stored answer for a method
is empty gets no annotation entry for that method, and contributes to no
outcome-category count of that method in the summary. -/
theorem c10_manual_empty_answer_skipped (gt_answer : Option String)
    (gt_correct : Option Bool) (r : ManualResult) (m : Method)
    (h : r.getAnswer m = "") :
    (annotateOneManual gt_answer gt_correct r).get m = none ∧
    ∀ (l : List AnnsOpt) (c : OutcomeCategory),
      countCatManual (annotateOneManual gt_answer gt_correct r :: l) m c =
        countCatManual l m c := by
  have hget : (annotateOneManual gt_answer gt_correct r).get m = none := by
    cases m <;> simp_all [annotateOneManual, AnnsOpt.get, ManualResult.getAnswer]
  refine ⟨hget, ?_⟩
  intro l c
  rw [countCatManual_cons, hget]
  rfl

/-- Witness for C10 at a concrete all-empty manual result. -/
theorem c10_manual_empty_answer_skipped_witness :
    (annotateOneManual none none
      { prompt := "q", vanilla := "", rag := "",
        self_consistency := "", truthscore := "" }).get .vanilla = none ∧
    countCatManual
        [annotateOneManual none none
          { prompt := "q", vanilla := "", rag := "",
            self_consistency := "", truthscore := "" }] .vanilla
        .CORRECT_ANSWER
      = countCatManual [] .vanilla .CORRECT_ANSWER :=
  ⟨(c10_manual_empty_answer_skipped none none
      { prompt := "q", vanilla := "", rag := "",
        self_consistency := "", truthscore := "" } .vanilla rfl).1,
   (c10_manual_empty_answer_skipped none none
      { prompt := "q", vanilla := "", rag := "",
        self_consistency := "", truthscore := "" } .vanilla rfl).2
      [] .CORRECT_ANSWER⟩
